import Mathlib

/-!
Shallow embedding of the serial communication subsystem of the Bifröst
robot-arm controller: the background serial I/O thread
(`serial_thread.py`), the response router (`serial_response_router.py`)
and the connection manager (`connection_manager.py`).

Wall-clock time is modelled as `ℤ` (a fixed sub-second unit such as
milliseconds: only comparisons of timestamps and durations matter to
the code); the externally supplied timing constants from the
configuration module are parameters of the model.  Serial I/O, Qt
signal emissions and queue writes are recorded as explicit trace items
so that ordering properties can be stated.  String predicates
(`strip`/`upper`/`lower`/`startswith`/substring membership) are
implemented over `List Char` so that all definitions reduce in the
kernel.
-/

namespace Bifrost

abbrev Time := ℤ

/-- Python's `str.strip()`: drop leading and trailing whitespace. -/
def trimChars (l : List Char) : List Char :=
  ((l.dropWhile Char.isWhitespace).reverse.dropWhile
    Char.isWhitespace).reverse

/-- Python's `str.upper()` (ASCII). -/
def toUpperChars (l : List Char) : List Char := l.map Char.toUpper

/-- Python's `str.lower()` (ASCII). -/
def toLowerChars (l : List Char) : List Char := l.map Char.toLower

/-- Externally supplied timing constants consumed by the serial thread
(the polling cadences and MIN/MAX pause bounds). -/
structure Cfg where
  statusRequestInterval : Time
  endstopRequestInterval : Time
  minPause : Time
  maxPause : Time
deriving DecidableEq, Repr

/-- A queued write request: command text plus priority flag, as produced
by `serial_manager.write(cmd, priority=...)` call sites. -/
structure Req where
  cmd : String
  priority : Bool
deriving DecidableEq, Repr

/-- The mutable fields of `SerialThread` (`serial_thread.py`, `__init__`). -/
structure ThreadState where
  running : Bool
  elapsed_time : Time
  endstop_check_time : Time
  status_polling_paused : Bool
  blocking_command_start_time : Time
deriving DecidableEq, Repr

/-- `SerialThread.BLOCKING_COMMANDS`. -/
def BLOCKING_COMMANDS : List String := ["G28", "G29", "M999"]

/-- Character-list check: the first list is an initial segment of the
second. -/
def hasPrefixChars : List Char → List Char → Bool
  | [], _ => true
  | _ :: _, [] => false
  | a :: as, b :: bs => a == b && hasPrefixChars as bs

/-- The blocking-command test of `SerialThread._process_command_queue`:
the written command, decoded, stripped and uppercased, starts with one of
the blocking prefixes. -/
def isBlockingCommand (command : String) : Bool :=
  BLOCKING_COMMANDS.any
    (fun b => hasPrefixChars b.data (toUpperChars (trimChars command.data)))

/-- One observable action of the I/O loop: a serial probe, a serial
write, a serial read, a line emission on the signal channel, the
disconnect-sentinel emission, or an enqueue onto the command queue. -/
inductive TraceItem where
  | probeOp : TraceItem
  | serialWrite : String → TraceItem
  | serialRead : TraceItem
  | emitLine : String → TraceItem
  | emitDisconnect : TraceItem
  | enqueue : Req → TraceItem
deriving DecidableEq, Repr

/-- `SerialThread._process_command_queue`: dequeue at most one command,
write it (a failed write emits the disconnect sentinel and clears the
running flag), and pause polling when the command is blocking. -/
def processCommandQueue (st : ThreadState) (t : Time)
    (nextCommand : Option String) (writeOk : Bool) :
    ThreadState × List TraceItem :=
  match nextCommand with
  | none => (st, [])
  | some command =>
    if command.data.isEmpty then (st, [])
    else if !writeOk then
      ({st with running := false},
       [TraceItem.serialWrite command, TraceItem.emitDisconnect])
    else if isBlockingCommand command then
      ({st with status_polling_paused := true,
                blocking_command_start_time := t},
       [TraceItem.serialWrite command])
    else (st, [TraceItem.serialWrite command])

/-- `SerialThread._request_immediate_status`: one priority position
request followed by one priority endstop request. -/
def requestImmediateStatus : List Req :=
  [⟨"M114\n", true⟩, ⟨"M119\n", true⟩]

/-- `SerialThread._check_polling_timeout`: if paused for at least
MAX_PAUSE, force resume and request immediate status. -/
def checkPollingTimeout (cfg : Cfg) (st : ThreadState) (t : Time) :
    ThreadState × List Req :=
  if st.status_polling_paused then
    if t - st.blocking_command_start_time ≥ cfg.maxPause then
      ({st with status_polling_paused := false}, requestImmediateStatus)
    else (st, [])
  else (st, [])

/-- `SerialThread._send_status_requests`: when not paused, enqueue a
priority M114 when the position cadence has elapsed and a priority M119
when the endstop cadence has elapsed, each resetting its own timer. -/
def sendStatusRequests (cfg : Cfg) (st : ThreadState) (t : Time) :
    ThreadState × List Req :=
  if st.status_polling_paused then (st, [])
  else
    let p1 :=
      if t - st.elapsed_time > cfg.statusRequestInterval then
        ({st with elapsed_time := t}, [(⟨"M114\n", true⟩ : Req)])
      else (st, [])
    let p2 :=
      if t - p1.1.endstop_check_time > cfg.endstopRequestInterval then
        ({p1.1 with endstop_check_time := t}, [(⟨"M119\n", true⟩ : Req)])
      else (p1.1, [])
    (p2.1, p1.2 ++ p2.2)

/-- Character-list substring check (Python's `in` on strings). -/
def containsChars (needle : List Char) : List Char → Bool
  | [] => needle.isEmpty
  | b :: bs => hasPrefixChars needle (b :: bs) || containsChars needle bs

/-- The acknowledgment test of `_check_blocking_command_complete`:
`"ok" in data.lower()`. -/
def containsOk (data : String) : Bool :=
  containsChars "ok".data (toLowerChars data.data)

/-- `SerialThread._check_blocking_command_complete`: while paused, an
acknowledgment line resumes polling (with an immediate status refresh)
only once at least MIN_PAUSE has elapsed since the pause started. -/
def checkBlockingCommandComplete (cfg : Cfg) (st : ThreadState)
    (data : String) (t : Time) : ThreadState × List Req :=
  if !st.status_polling_paused then (st, [])
  else if !containsOk data then (st, [])
  else if t - st.blocking_command_start_time ≥ cfg.minPause then
    ({st with status_polling_paused := false}, requestImmediateStatus)
  else (st, [])

/-- Outcome of one `readline()` call: a decoded line, or an I/O error
(`OSError` / `SerialException`). -/
inductive ReadResult where
  | line : String → ReadResult
  | fail : ReadResult
deriving DecidableEq, Repr

/-- The batched read loop inside `SerialThread._read_serial_data`: up to
the estimated number of lines, stopping early when no bytes remain
(modelled by exhaustion of the read stream); a read failure emits the
disconnect sentinel and clears the running flag, aborting the loop. -/
def readLoop (cfg : Cfg) : Nat → ThreadState → List ReadResult → Time →
    ThreadState × List TraceItem
  | 0, st, _, _ => (st, [])
  | _ + 1, st, [], _ => (st, [])
  | n + 1, st, r :: rs, t =>
    match r with
    | ReadResult.fail =>
      ({st with running := false},
       [TraceItem.serialRead, TraceItem.emitDisconnect])
    | ReadResult.line s =>
      let ds := String.mk (trimChars s.data)
      if ds.data.isEmpty then
        let q := readLoop cfg n st rs t
        (q.1, TraceItem.serialRead :: q.2)
      else
        let p := checkBlockingCommandComplete cfg st ds t
        let q := readLoop cfg n p.1 rs t
        (q.1,
         TraceItem.serialRead :: TraceItem.emitLine ds ::
           p.2.map TraceItem.enqueue ++ q.2)

/-- `SerialThread._read_serial_data`: nothing to do when no bytes are
pending; otherwise run the batched read loop with the estimated line
count `max 1 (min 10 (bytes_available // 30))`. -/
def readSerialData (cfg : Cfg) (st : ThreadState) (bytesAvailable : Nat)
    (reads : List ReadResult) (t : Time) : ThreadState × List TraceItem :=
  if bytesAvailable == 0 then (st, [])
  else readLoop cfg (max 1 (min 10 (bytesAvailable / 30))) st reads t

/-- Environment of one iteration of `SerialThread.run`: whether the
handle is open, the outcome of the pending-byte probe (`none` = the
probe raised), the dequeued command if any, whether its write succeeds,
and the stream of read outcomes. -/
structure IterEnv where
  isOpen : Bool
  probe : Option Nat
  nextCommand : Option String
  writeOk : Bool
  reads : List ReadResult
deriving Repr

/-- The main path of one iteration of `SerialThread.run` once the
pending-byte probe has succeeded: process the command queue, check the
pause timeout, send the cadence status requests, then read available
data.  All four steps run even when an earlier one cleared the running
flag, exactly as in the source. -/
def runIterationBody (cfg : Cfg) (st : ThreadState) (t : Time)
    (nextCommand : Option String) (writeOk : Bool)
    (bytesAvailable : Nat) (reads : List ReadResult) :
    ThreadState × List TraceItem :=
  let p1 := processCommandQueue st t nextCommand writeOk
  let p2 := checkPollingTimeout cfg p1.1 t
  let p3 := sendStatusRequests cfg p2.1 t
  let p4 := readSerialData cfg p3.1 bytesAvailable reads t
  (p4.1,
   TraceItem.probeOp :: p1.2 ++ p2.2.map TraceItem.enqueue ++
     p3.2.map TraceItem.enqueue ++ p4.2)

/-- One iteration of the `while self.running` body of
`SerialThread.run`.  Returns the new thread state, the trace of the
iteration, and whether the iteration broke out of the loop (the
pending-byte probe failing executes `break`). -/
def runIteration (cfg : Cfg) (st : ThreadState) (t : Time)
    (env : IterEnv) : ThreadState × List TraceItem × Bool :=
  if !env.isOpen then (st, [], false)
  else
    match env.probe with
    | none => (st, [TraceItem.probeOp, TraceItem.emitDisconnect], true)
    | some bytesAvailable =>
      let p := runIterationBody cfg st t env.nextCommand env.writeOk
        bytesAvailable env.reads
      (p.1, p.2, false)

/-- The `while self.running` loop of `SerialThread.run`, driven by a
finite schedule of per-iteration times and environments; it stops when
the running flag is cleared or an iteration breaks. -/
def runLoop (cfg : Cfg) : ThreadState → List (Time × IterEnv) →
    List TraceItem
  | _, [] => []
  | st, (t, env) :: rest =>
    if st.running then
      let p := runIteration cfg st t env
      if p.2.2 then p.2.1 else p.2.1 ++ runLoop cfg p.1 rest
    else []

/-- Whether a trace item is a serial read or serial write. -/
def isIOOp : TraceItem → Bool
  | TraceItem.serialRead => true
  | TraceItem.serialWrite _ => true
  | _ => false

/-- Whether a trace contains a disconnect emission. -/
def containsDisconnect (tr : List TraceItem) : Bool :=
  tr.any (fun x => x == TraceItem.emitDisconnect)

/-- No serial read or write occurs after a disconnect emission in the
trace. -/
def noIOAfterDisconnect : List TraceItem → Bool
  | [] => true
  | TraceItem.emitDisconnect :: rest => rest.all (fun x => !isIOOp x)
  | _ :: rest => noIOAfterDisconnect rest

/-! ### Response router (`serial_response_router.py`) -/

/-- `ResponseType` of `serial_response_router.py`. -/
inductive ResponseType where
  | position : ResponseType
  | endstop : ResponseType
  | ok : ResponseType
  | disconnect : ResponseType
  | other : ResponseType
deriving DecidableEq, Repr

/-- `SerialResponseRouter.DISCONNECT_MARKER`. -/
def DISCONNECT_MARKER : String := "SERIAL-DISCONNECTED"

/-- The line-shape predicates supplied by the parsing-patterns module
(external to the router; the router only consumes their Boolean
verdicts). -/
structure Classifier where
  is_m114_response : String → Bool
  is_m119_response : String → Bool
  is_ok_response : String → Bool

/-- `SerialResponseRouter.identify_response_type`. -/
def identify_response_type (c : Classifier) (data : String) :
    ResponseType :=
  if data = DISCONNECT_MARKER then ResponseType.disconnect
  else if c.is_m114_response data then ResponseType.position
  else if c.is_m119_response data then ResponseType.endstop
  else if c.is_ok_response data then ResponseType.ok
  else ResponseType.other

/-- `RoutingResult` of `serial_response_router.py`; the optional
`sync_triggered` field mirrors the `data` dictionary attached to
position results. -/
structure RoutingResult where
  response_type : ResponseType
  handled : Bool
  show_in_console : Bool
  sync_triggered : Option Bool
deriving DecidableEq, Repr

/-- A callback invocation performed by the router while routing one
line. -/
inductive RouterEffect where
  | positionHandled : String → RouterEffect
  | endstopHandled : String → RouterEffect
  | disconnectHandled : RouterEffect
  | homingComplete : RouterEffect
  | requestPositionUpdateEffect : RouterEffect
  | setSyncPending : RouterEffect
  | triggerSync : RouterEffect
deriving DecidableEq, Repr

/-- `self._manual_command_display_duration = 2.0` seconds, in
milliseconds. -/
def manual_command_display_duration : Time := 2000

/-- The homing-completion side effects of
`SerialResponseRouter._check_homing_completion`, run when an OK line is
routed: when homing is in progress, mark homing complete, request a
position update, and flag sync pending. -/
def checkHomingCompletion (isHoming : Bool) : List RouterEffect :=
  if isHoming then
    [RouterEffect.homingComplete, RouterEffect.requestPositionUpdateEffect,
     RouterEffect.setSyncPending]
  else []

/-- `SerialResponseRouter.route_response`.  `lastManualCommandTime` is
the router's `_last_manual_command_time` field and `now` the current
wall-clock time; `isHoming` is the verdict of the external
`get_is_homing` callback.  Returns the routing result together with the
ordered list of callback invocations. -/
def route_response (c : Classifier) (lastManualCommandTime now : Time)
    (isHoming : Bool) (data : String)
    (verbose_show ok_show sync_pending : Bool) :
    RoutingResult × List RouterEffect :=
  let rt := identify_response_type c data
  if rt = ResponseType.disconnect then
    (⟨ResponseType.disconnect, true, false, none⟩,
     [RouterEffect.disconnectHandled])
  else
    let homingEffects :=
      if rt = ResponseType.ok then checkHomingCompletion isHoming else []
    if now - lastManualCommandTime < manual_command_display_duration then
      (⟨rt, false, true, none⟩, homingEffects)
    else if rt = ResponseType.endstop then
      (⟨ResponseType.endstop, true, false, none⟩,
       homingEffects ++ [RouterEffect.endstopHandled data])
    else if rt = ResponseType.position then
      (⟨ResponseType.position, true, verbose_show, some sync_pending⟩,
       homingEffects ++ RouterEffect.positionHandled data ::
         (if sync_pending then [RouterEffect.triggerSync] else []))
    else if rt = ResponseType.ok then
      (⟨ResponseType.ok, true, ok_show, none⟩, homingEffects)
    else
      (⟨ResponseType.other, false, true, none⟩, homingEffects)

/-! ### Connection manager (`connection_manager.py`) -/

/-- `ConnectionState` constants. -/
inductive ConnState where
  | disconnected : ConnState
  | connecting : ConnState
  | connected : ConnState
  | error : ConnState
deriving DecidableEq, Repr

/-- The fields of `ConnectionManager` relevant to the lifecycle, plus
the open/closed status of the owned serial handle and whether a serial
thread instance is alive. -/
structure MgrState where
  state : ConnState
  current_port : Option String
  current_baudrate : Option String
  handleOpen : Bool
  threadActive : Bool
deriving DecidableEq, Repr

/-- `ConnectionManager.is_connected`: state is Connected and the handle
reports open. -/
def is_connected (m : MgrState) : Bool :=
  m.state == ConnState.connected && m.handleOpen

/-- A notification emitted by the connection manager (its Qt signals). -/
inductive MgrEvent where
  | stateChanged : ConnState → MgrEvent
  | connectedEv : String → String → MgrEvent
  | disconnectedEv : MgrEvent
  | errorEv : String → MgrEvent
deriving DecidableEq, Repr

/-- The steps of `ConnectionManager._connect_worker`, in order; an
environment names the first step that raises, if any. -/
inductive WorkerStep where
  | stopPrev : WorkerStep
  | closePrev : WorkerStep
  | configure : WorkerStep
  | openPort : WorkerStep
  | clearBuffer : WorkerStep
  | startThread : WorkerStep
deriving DecidableEq, Repr

/-- `ConnectionManager.disconnect`: stop and join the serial thread,
close the handle, clear cached port/baud, go to Disconnected and notify;
a teardown exception (environment `some msg`) is caught and converted to
an Error state plus `error(msg)` notification. -/
def disconnectFn (m : MgrState) (teardownFail : Option String) :
    MgrState × List MgrEvent :=
  match teardownFail with
  | some msg =>
    ({m with state := ConnState.error},
     [MgrEvent.stateChanged ConnState.error, MgrEvent.errorEv msg])
  | none =>
    ({m with threadActive := false, handleOpen := false,
             current_port := none, current_baudrate := none,
             state := ConnState.disconnected},
     [MgrEvent.stateChanged ConnState.disconnected,
      MgrEvent.disconnectedEv])

/-- `ConnectionManager._connect_worker`: stop any prior thread, close
any prior handle, configure, open, clear the input buffer, start a new
serial thread, record port/baud, go to Connected and notify
`connected(port, baud)`.  An exception at any step (environment
`some (step, msg)`) is caught: the state goes to Error and `error(msg)`
is emitted, with only the side effects already performed before the
failing step retained. -/
def connectWorker (m : MgrState) (port baud : String)
    (fail : Option (WorkerStep × String)) : MgrState × List MgrEvent :=
  match fail with
  | none =>
    ({m with handleOpen := true, threadActive := true,
             current_port := some port, current_baudrate := some baud,
             state := ConnState.connected},
     [MgrEvent.stateChanged ConnState.connected,
      MgrEvent.connectedEv port baud])
  | some (step, msg) =>
    let m1 :=
      match step with
      | WorkerStep.stopPrev => m
      | WorkerStep.closePrev => {m with threadActive := false}
      | WorkerStep.configure =>
        {m with threadActive := false, handleOpen := false}
      | WorkerStep.openPort =>
        {m with threadActive := false, handleOpen := false}
      | WorkerStep.clearBuffer =>
        {m with threadActive := false, handleOpen := true}
      | WorkerStep.startThread =>
        {m with threadActive := false, handleOpen := true}
    ({m1 with state := ConnState.error},
     [MgrEvent.stateChanged ConnState.error, MgrEvent.errorEv msg])

/-- `ConnectionManager.connect`: reject an empty port or baud
synchronously with an `error` notification; otherwise disconnect first
when already connected, go to Connecting, and run the connect worker. -/
def connectFn (m : MgrState) (port baud : String)
    (workerFail : Option (WorkerStep × String))
    (teardownFail : Option String) : MgrState × List MgrEvent :=
  if port.data.isEmpty then
    (m, [MgrEvent.errorEv "No serial port specified"])
  else if baud.data.isEmpty then
    (m, [MgrEvent.errorEv "No baud rate specified"])
  else
    let p1 :=
      if is_connected m then disconnectFn m teardownFail else (m, [])
    let m2 := {p1.1 with state := ConnState.connecting}
    let p3 := connectWorker m2 port baud workerFail
    (p3.1,
     p1.2 ++ MgrEvent.stateChanged ConnState.connecting :: p3.2)

/-- `ConnectionManager.request_position_update`: enqueue a priority
M114 and a priority M119 when the serial handle is open. -/
def request_position_update (m : MgrState) : List Req :=
  if m.handleOpen then [⟨"M114\n", true⟩, ⟨"M119\n", true⟩] else []

/-! ### Sample configurations and states used by concrete witnesses -/

/-- A sample configuration, in milliseconds: 1 s polling cadences,
MIN_PAUSE 0.3 s, MAX_PAUSE 5 s (the values of the scenario in the
specification). -/
def cfg0 : Cfg := ⟨1000, 1000, 300, 5000⟩

/-- A fresh thread state: running, polling active, all timers at 0. -/
def st0 : ThreadState := ⟨true, 0, 0, false, 0⟩

/-- A thread state paused since time 0. -/
def stPaused : ThreadState := ⟨true, 0, 0, true, 0⟩

/-- A stopped thread state. -/
def stStopped : ThreadState := ⟨false, 0, 0, false, 0⟩

/-- An iteration environment whose command write fails while a line is
pending to be read. -/
def envWriteFail : IterEnv :=
  ⟨true, some 100, some "G1 X0 Y0", false, [ReadResult.line "X1"]⟩

/-- An iteration environment whose read fails. -/
def envReadFail : IterEnv := ⟨true, some 100, none, true, [ReadResult.fail]⟩

/-- A classifier recognizing only the literal line "X:0.00" as a
position report. -/
def cPos : Classifier :=
  ⟨fun s => s == "X:0.00", fun _ => false, fun _ => false⟩

/-- A classifier recognizing only the literal line "ok" as an
acknowledgment. -/
def cOk : Classifier :=
  ⟨fun _ => false, fun _ => false, fun s => s == "ok"⟩

/-- A manager state whose handle is open while the state field is
Disconnected. -/
def mOpenNotConnected : MgrState :=
  ⟨ConnState.disconnected, none, none, true, false⟩

/-- A freshly constructed manager: Disconnected, nothing cached, handle
closed. -/
def mDisc : MgrState := ⟨ConnState.disconnected, none, none, false, false⟩

/-! ### Claim theorems -/

/-- C1: a dequeued command whose stripped, uppercased text starts with a
blocking prefix leaves the polling state Paused immediately after the
(successful) write, with the pause start time recorded; and while
paused, the status-request step enqueues no position or endstop
request. -/
theorem blocking_command_pauses_polling (cfg : Cfg)
    (st st2 : ThreadState) (t t2 : Time) (command : String)
    (hb : isBlockingCommand command = true)
    (hp : st2.status_polling_paused = true) :
    ((processCommandQueue st t (some command) true).1.status_polling_paused
        = true
      ∧ (processCommandQueue st t
          (some command) true).1.blocking_command_start_time = t)
    ∧ sendStatusRequests cfg st2 t2 = (st2, []) := by
  have hne : command.data.isEmpty = false := by
    cases h : command.data.isEmpty
    · rfl
    · exfalso
      have hdata : command.data = [] := by simpa using h
      simp only [isBlockingCommand, hdata] at hb
      exact absurd hb (by decide)
  refine ⟨?_, by simp [sendStatusRequests, hp]⟩
  simp [processCommandQueue, hne, hb]

/-- Witness for C1 at the concrete command "G28". -/
theorem blocking_command_pauses_polling_witness :
    ((processCommandQueue st0 1 (some "G28") true).1.status_polling_paused
        = true
      ∧ (processCommandQueue st0 1
          (some "G28") true).1.blocking_command_start_time = 1)
    ∧ sendStatusRequests cfg0 stPaused 2 = (stPaused, []) :=
  blocking_command_pauses_polling cfg0 st0 stPaused 1 2 "G28"
    (by decide) (by decide)

/-- C2: when paused for at least MAX_PAUSE, the timeout check resumes
polling and issues exactly one out-of-band refresh (a priority position
request followed by a priority endstop request); on the resulting state
the timeout check never fires again. -/
theorem polling_timeout_forces_resume (cfg : Cfg) (st : ThreadState)
    (t : Time) (hp : st.status_polling_paused = true)
    (ht : t - st.blocking_command_start_time ≥ cfg.maxPause) :
    (checkPollingTimeout cfg st t).1.status_polling_paused = false
    ∧ (checkPollingTimeout cfg st t).2
        = [⟨"M114\n", true⟩, ⟨"M119\n", true⟩]
    ∧ ∀ t2, checkPollingTimeout cfg (checkPollingTimeout cfg st t).1 t2
        = ((checkPollingTimeout cfg st t).1, []) := by
  have h1 : checkPollingTimeout cfg st t
      = ({st with status_polling_paused := false},
         requestImmediateStatus) := by
    simp [checkPollingTimeout, hp, ht]
  refine ⟨by simp [h1], by simp [h1, requestImmediateStatus], ?_⟩
  intro t2
  rw [h1]
  simp [checkPollingTimeout]

/-- Witness for C2 at MAX_PAUSE = 5 s, checked 5 s after the pause. -/
theorem polling_timeout_forces_resume_witness :
    (checkPollingTimeout cfg0 stPaused 5000).1.status_polling_paused = false
    ∧ (checkPollingTimeout cfg0 stPaused 5000).2
        = [⟨"M114\n", true⟩, ⟨"M119\n", true⟩]
    ∧ checkPollingTimeout cfg0 (checkPollingTimeout cfg0 stPaused 5000).1 9000
        = ((checkPollingTimeout cfg0 stPaused 5000).1, []) :=
  ⟨(polling_timeout_forces_resume cfg0 stPaused 5000 (by decide)
      (by decide)).1,
   (polling_timeout_forces_resume cfg0 stPaused 5000 (by decide)
      (by decide)).2.1,
   (polling_timeout_forces_resume cfg0 stPaused 5000 (by decide)
      (by decide)).2.2 9000⟩

/-- C3: while paused, a line containing the acknowledgment token
(case-insensitively) leaves the state paused when received before
MIN_PAUSE, and resumes polling with the out-of-band refresh when
received at or after MIN_PAUSE. -/
theorem ack_resume_respects_min_pause (cfg : Cfg) (st : ThreadState)
    (data : String) (t : Time)
    (hp : st.status_polling_paused = true)
    (hok : containsOk data = true) :
    (t - st.blocking_command_start_time < cfg.minPause →
       checkBlockingCommandComplete cfg st data t = (st, []))
    ∧ (t - st.blocking_command_start_time ≥ cfg.minPause →
       (checkBlockingCommandComplete cfg st data t).1.status_polling_paused
           = false
       ∧ (checkBlockingCommandComplete cfg st data t).2
           = [⟨"M114\n", true⟩, ⟨"M119\n", true⟩]) := by
  constructor
  · intro hlt
    have hge : ¬ (t - st.blocking_command_start_time ≥ cfg.minPause) :=
      not_le.mpr hlt
    simp [checkBlockingCommandComplete, hp, hok, hge]
  · intro hge
    simp [checkBlockingCommandComplete, hp, hok, hge,
          requestImmediateStatus]

/-- Witness for C3: the spec scenario with MIN_PAUSE = 0.3 s, an "ok"
at t+0.05 s (remains paused) and an "ok" at t+0.35 s (resumes). -/
theorem ack_resume_respects_min_pause_witness :
    checkBlockingCommandComplete cfg0 stPaused "ok" 50 = (stPaused, [])
    ∧ (checkBlockingCommandComplete cfg0 stPaused "ok"
        350).1.status_polling_paused = false :=
  ⟨(ack_resume_respects_min_pause cfg0 stPaused "ok" 50 (by decide)
      (by decide)).1 (by decide),
   ((ack_resume_respects_min_pause cfg0 stPaused "ok" 350 (by decide)
      (by decide)).2 (by decide)).1⟩

/-- C5: with a non-empty port and baud and starting Disconnected, a
fully successful connect passes through Connecting then Connected and
emits `connected(port, baud)`; a failure at any worker step instead
ends in the Error state with an `error(msg)` notification (and no
exception escapes: `connectFn` is total). -/
theorem connect_success_and_error_paths (m : MgrState)
    (port baud : String) (tf : Option String)
    (hp : port.data.isEmpty = false) (hb : baud.data.isEmpty = false)
    (hs : m.state = ConnState.disconnected) :
    (connectFn m port baud none tf
       = ({m with handleOpen := true, threadActive := true,
                  current_port := some port,
                  current_baudrate := some baud,
                  state := ConnState.connected},
          [MgrEvent.stateChanged ConnState.connecting,
           MgrEvent.stateChanged ConnState.connected,
           MgrEvent.connectedEv port baud]))
    ∧ ∀ step msg,
        (connectFn m port baud (some (step, msg)) tf).1.state
            = ConnState.error
        ∧ (connectFn m port baud (some (step, msg)) tf).2
            = [MgrEvent.stateChanged ConnState.connecting,
               MgrEvent.stateChanged ConnState.error,
               MgrEvent.errorEv msg] := by
  have hic : is_connected m = false := by simp [is_connected, hs]
  constructor
  · simp [connectFn, hp, hb, hic, connectWorker]
  · intro step msg
    cases step <;>
      exact ⟨by simp [connectFn, hp, hb, hic, connectWorker],
             by simp [connectFn, hp, hb, hic, connectWorker]⟩

/-- Witness for C5: `connect("COM3","115200")` succeeding, and failing
at the port-open step. -/
theorem connect_success_and_error_paths_witness :
    (connectFn mDisc "COM3" "115200" none none
       = ({mDisc with handleOpen := true, threadActive := true,
                      current_port := some "COM3",
                      current_baudrate := some "115200",
                      state := ConnState.connected},
          [MgrEvent.stateChanged ConnState.connecting,
           MgrEvent.stateChanged ConnState.connected,
           MgrEvent.connectedEv "COM3" "115200"]))
    ∧ (connectFn mDisc "COM3" "115200"
        (some (WorkerStep.openPort, "open failed")) none).1.state
        = ConnState.error :=
  ⟨(connect_success_and_error_paths mDisc "COM3" "115200" none
      (by decide) (by decide) (by decide)).1,
   ((connect_success_and_error_paths mDisc "COM3" "115200" none
      (by decide) (by decide) (by decide)).2
      WorkerStep.openPort "open failed").1⟩

/-- C6: routing a line classified Ok while homing is in progress invokes
the homing-complete callback, the position-refresh request, and the
set-sync-pending callback exactly once each, whether or not the line
arrives inside the manual-echo window. -/
theorem homing_ok_effects_once (c : Classifier) (lastT now : Time)
    (data : String) (vs os sp : Bool)
    (hok : identify_response_type c data = ResponseType.ok) :
    (route_response c lastT now true data vs os sp).2.count
        RouterEffect.homingComplete = 1
    ∧ (route_response c lastT now true data vs os sp).2.count
        RouterEffect.requestPositionUpdateEffect = 1
    ∧ (route_response c lastT now true data vs os sp).2.count
        RouterEffect.setSyncPending = 1 := by
  have hroute : (route_response c lastT now true data vs os sp).2
      = [RouterEffect.homingComplete,
         RouterEffect.requestPositionUpdateEffect,
         RouterEffect.setSyncPending] := by
    by_cases hw : now - lastT < manual_command_display_duration <;>
      simp [route_response, hok, hw, checkHomingCompletion]
  refine ⟨?_, ?_, ?_⟩ <;> rw [hroute] <;> decide

/-- Witness for C6 at an "ok" line arriving inside the echo window. -/
theorem homing_ok_effects_once_witness :
    (route_response cOk 0 100 true "ok" false false false).2.count
        RouterEffect.homingComplete = 1
    ∧ (route_response cOk 0 100 true "ok" false false false).2.count
        RouterEffect.requestPositionUpdateEffect = 1
    ∧ (route_response cOk 0 100 true "ok" false false false).2.count
        RouterEffect.setSyncPending = 1 :=
  homing_ok_effects_once cOk 0 100 "ok" false false false (by decide)

/-- C7 counterexample: a Position line routed with syncPending inside
the manual-echo window does not invoke the sync trigger, so the claim
as stated (exactly one invocation for every such call) is false. -/
theorem sync_trigger_echo_window_cex :
    identify_response_type cPos "X:0.00" = ResponseType.position
    ∧ (100 : Time) - 0 < manual_command_display_duration
    ∧ (route_response cPos 0 100 false "X:0.00" false false true).2.count
        RouterEffect.triggerSync = 0 := by decide

/-- C7 amended: outside the manual-echo window, routing a Position line
with syncPending invokes the sync trigger exactly once, and with
syncPending false it is not invoked. -/
theorem sync_trigger_on_position_outside_window (c : Classifier)
    (lastT now : Time) (homing : Bool) (data : String) (vs os : Bool)
    (hpos : identify_response_type c data = ResponseType.position)
    (hwin : ¬ (now - lastT < manual_command_display_duration)) :
    (route_response c lastT now homing data vs os true).2.count
        RouterEffect.triggerSync = 1
    ∧ (route_response c lastT now homing data vs os false).2.count
        RouterEffect.triggerSync = 0 := by
  have h1 : (route_response c lastT now homing data vs os true).2
      = [RouterEffect.positionHandled data, RouterEffect.triggerSync] := by
    simp [route_response, hpos, hwin]
  have h0 : (route_response c lastT now homing data vs os false).2
      = [RouterEffect.positionHandled data] := by
    simp [route_response, hpos, hwin]
  exact ⟨by rw [h1]; rfl, by rw [h0]; rfl⟩

/-- Witness for the amended C7 at a position line 5 s after the last
manual command. -/
theorem sync_trigger_on_position_outside_window_witness :
    (route_response cPos 0 5000 false "X:0.00" false false true).2.count
        RouterEffect.triggerSync = 1
    ∧ (route_response cPos 0 5000 false "X:0.00" false false false).2.count
        RouterEffect.triggerSync = 0 :=
  sync_trigger_on_position_outside_window cPos 0 5000 false "X:0.00"
    false false (by decide) (by decide)

/-- C8 counterexample: the disconnect sentinel routed inside the
manual-echo window still yields handled = true and show = false, so the
window does not force show/handled "regardless of classification". -/
theorem echo_window_disconnect_cex :
    (100 : Time) - 0 < manual_command_display_duration
    ∧ (route_response cPos 0 100 false DISCONNECT_MARKER
        false false false).1.handled = true
    ∧ (route_response cPos 0 100 false DISCONNECT_MARKER
        false false false).1.show_in_console = false := by decide

/-- C8 amended: for every line whose classification is not Disconnect,
routing inside the manual-echo window returns show = true and
handled = false. -/
theorem echo_window_forces_show (c : Classifier) (lastT now : Time)
    (homing : Bool) (data : String) (vs os sp : Bool)
    (hnd : identify_response_type c data ≠ ResponseType.disconnect)
    (hwin : now - lastT < manual_command_display_duration) :
    (route_response c lastT now homing data vs os sp).1.show_in_console
        = true
    ∧ (route_response c lastT now homing data vs os sp).1.handled
        = false := by
  simp [route_response, hnd, hwin]

/-- Witness for the amended C8 at a position line inside the window. -/
theorem echo_window_forces_show_witness :
    (route_response cPos 0 100 false "X:0.00" false false
        false).1.show_in_console = true
    ∧ (route_response cPos 0 100 false "X:0.00" false false
        false).1.handled = false :=
  echo_window_forces_show cPos 0 100 false "X:0.00" false false false
    (by decide) (by decide)

/-- C9 counterexample: with the handle open but the manager state
Disconnected, `is_connected` is false yet `request_position_update`
still enqueues the two priority requests, so the stated
"if and only if connected" is false. -/
theorem request_position_update_not_connected_cex :
    is_connected mOpenNotConnected = false
    ∧ request_position_update mOpenNotConnected
        = [⟨"M114\n", true⟩, ⟨"M119\n", true⟩] := by decide

/-- C9 amended: `request_position_update` enqueues exactly one priority
position request and one priority endstop request if and only if the
serial handle is open (the manager's state field is not consulted). -/
theorem request_position_update_iff_handle_open (m : MgrState) :
    (m.handleOpen = true →
       request_position_update m
         = [⟨"M114\n", true⟩, ⟨"M119\n", true⟩])
    ∧ (m.handleOpen = false → request_position_update m = []) := by
  constructor <;> intro h <;> simp [request_position_update, h]

/-- Witness for the amended C9: open handle enqueues the pair, closed
handle enqueues nothing. -/
theorem request_position_update_iff_handle_open_witness :
    request_position_update mOpenNotConnected
        = [⟨"M114\n", true⟩, ⟨"M119\n", true⟩]
    ∧ request_position_update mDisc = [] :=
  ⟨(request_position_update_iff_handle_open mOpenNotConnected).1
      (by decide),
   (request_position_update_iff_handle_open mDisc).2 (by decide)⟩

/-! ### Helper lemmas for the disconnect-termination analysis (C4) -/

theorem enqueue_beq_disc (r : Req) :
    (TraceItem.enqueue r == TraceItem.emitDisconnect) = false := rfl

theorem serialWrite_beq_disc (s : String) :
    (TraceItem.serialWrite s == TraceItem.emitDisconnect) = false := rfl

theorem emitLine_beq_disc (s : String) :
    (TraceItem.emitLine s == TraceItem.emitDisconnect) = false := rfl

theorem probeOp_beq_disc :
    (TraceItem.probeOp == TraceItem.emitDisconnect) = false := rfl

theorem serialRead_beq_disc :
    (TraceItem.serialRead == TraceItem.emitDisconnect) = false := rfl

theorem containsDisconnect_cons (x : TraceItem) (l : List TraceItem) :
    containsDisconnect (x :: l)
      = ((x == TraceItem.emitDisconnect) || containsDisconnect l) := by
  simp [containsDisconnect]

theorem containsDisconnect_append (a b : List TraceItem) :
    containsDisconnect (a ++ b)
      = (containsDisconnect a || containsDisconnect b) := by
  simp [containsDisconnect]

theorem containsDisconnect_enqueues (l : List Req) :
    containsDisconnect (l.map TraceItem.enqueue) = false := by
  induction l with
  | nil => rfl
  | cons a l ih =>
    rw [List.map_cons, containsDisconnect_cons, enqueue_beq_disc, ih]
    rfl

theorem checkPollingTimeout_preserves_running (cfg : Cfg)
    (st : ThreadState) (t : Time) :
    (checkPollingTimeout cfg st t).1.running = st.running := by
  unfold checkPollingTimeout
  split
  · split <;> rfl
  · rfl

theorem sendStatusRequests_preserves_running (cfg : Cfg)
    (st : ThreadState) (t : Time) :
    (sendStatusRequests cfg st t).1.running = st.running := by
  simp only [sendStatusRequests]
  split
  · rfl
  · split <;> split <;> rfl

theorem checkBlockingCommandComplete_preserves_running (cfg : Cfg)
    (st : ThreadState) (data : String) (t : Time) :
    (checkBlockingCommandComplete cfg st data t).1.running
      = st.running := by
  unfold checkBlockingCommandComplete
  split
  · rfl
  · split
    · rfl
    · split <;> rfl

theorem processCommandQueue_disc_running (st : ThreadState) (t : Time)
    (c : Option String) (w : Bool)
    (h : containsDisconnect (processCommandQueue st t c w).2 = true) :
    (processCommandQueue st t c w).1.running = false := by
  cases c with
  | none => simp [processCommandQueue, containsDisconnect] at h
  | some cmd =>
    cases he : cmd.data.isEmpty with
    | true => simp [processCommandQueue, he, containsDisconnect] at h
    | false =>
      cases hw : w with
      | false => simp [processCommandQueue, he, hw]
      | true =>
        cases hb : isBlockingCommand cmd <;>
          simp [processCommandQueue, he, hw, hb, containsDisconnect] at h

theorem processCommandQueue_no_disc_of_writeOk (st : ThreadState)
    (t : Time) (c : Option String) :
    containsDisconnect (processCommandQueue st t c true).2 = false := by
  cases c with
  | none => rfl
  | some cmd =>
    cases he : cmd.data.isEmpty with
    | true => simp [processCommandQueue, he, containsDisconnect]
    | false =>
      cases hb : isBlockingCommand cmd <;>
        simp [processCommandQueue, he, hb, containsDisconnect]

theorem readLoop_fail_eq (cfg : Cfg) (n : Nat) (st : ThreadState)
    (rs : List ReadResult) (t : Time) :
    readLoop cfg (n + 1) st (ReadResult.fail :: rs) t
      = ({st with running := false},
         [TraceItem.serialRead, TraceItem.emitDisconnect]) := rfl

theorem readLoop_line_eq_empty (cfg : Cfg) (n : Nat) (st : ThreadState)
    (s : String) (rs : List ReadResult) (t : Time)
    (h : (trimChars s.data).isEmpty = true) :
    readLoop cfg (n + 1) st (ReadResult.line s :: rs) t
      = ((readLoop cfg n st rs t).1,
         TraceItem.serialRead :: (readLoop cfg n st rs t).2) := by
  simp [readLoop, h]

theorem readLoop_line_eq_nonempty (cfg : Cfg) (n : Nat)
    (st : ThreadState) (s : String) (rs : List ReadResult) (t : Time)
    (h : (trimChars s.data).isEmpty = false) :
    readLoop cfg (n + 1) st (ReadResult.line s :: rs) t
      = ((readLoop cfg n
            (checkBlockingCommandComplete cfg st
              (String.mk (trimChars s.data)) t).1 rs t).1,
         (TraceItem.serialRead ::
            TraceItem.emitLine (String.mk (trimChars s.data)) ::
            (checkBlockingCommandComplete cfg st
              (String.mk (trimChars s.data)) t).2.map TraceItem.enqueue)
           ++ (readLoop cfg n
                (checkBlockingCommandComplete cfg st
                  (String.mk (trimChars s.data)) t).1 rs t).2) := by
  simp [readLoop, h]

theorem readLoop_running_false (cfg : Cfg) :
    ∀ (n : Nat) (rs : List ReadResult) (st : ThreadState) (t : Time),
      st.running = false → (readLoop cfg n st rs t).1.running = false := by
  intro n
  induction n with
  | zero => intro rs st t h; simpa [readLoop] using h
  | succ n ih =>
    intro rs st t h
    cases rs with
    | nil => simpa [readLoop] using h
    | cons r rs =>
      cases r with
      | fail => rw [readLoop_fail_eq]
      | line s =>
        cases hempty : (trimChars s.data).isEmpty with
        | true =>
          rw [readLoop_line_eq_empty cfg n st s rs t hempty]
          exact ih rs st t h
        | false =>
          rw [readLoop_line_eq_nonempty cfg n st s rs t hempty]
          exact ih rs _ t
            (by rw [checkBlockingCommandComplete_preserves_running]
                exact h)

theorem readLoop_disc_running (cfg : Cfg) :
    ∀ (n : Nat) (rs : List ReadResult) (st : ThreadState) (t : Time),
      containsDisconnect (readLoop cfg n st rs t).2 = true →
      (readLoop cfg n st rs t).1.running = false := by
  intro n
  induction n with
  | zero => intro rs st t h; simp [readLoop, containsDisconnect] at h
  | succ n ih =>
    intro rs st t h
    cases rs with
    | nil => simp [readLoop, containsDisconnect] at h
    | cons r rs =>
      cases r with
      | fail => rw [readLoop_fail_eq]
      | line s =>
        cases hempty : (trimChars s.data).isEmpty with
        | true =>
          rw [readLoop_line_eq_empty cfg n st s rs t hempty] at h ⊢
          rw [containsDisconnect_cons, serialRead_beq_disc,
              Bool.false_or] at h
          exact ih rs st t h
        | false =>
          rw [readLoop_line_eq_nonempty cfg n st s rs t hempty] at h ⊢
          rw [containsDisconnect_append, containsDisconnect_cons,
              containsDisconnect_cons, containsDisconnect_enqueues,
              serialRead_beq_disc, emitLine_beq_disc, Bool.false_or,
              Bool.false_or, Bool.false_or] at h
          exact ih rs _ t h

theorem noIO_of_prefix (l tr : List TraceItem)
    (hl : containsDisconnect l = false)
    (htr : noIOAfterDisconnect tr = true) :
    noIOAfterDisconnect (l ++ tr) = true := by
  induction l with
  | nil => simpa using htr
  | cons x xs ih =>
    rw [containsDisconnect_cons] at hl
    have hl' : containsDisconnect xs = false := by
      cases hc : containsDisconnect xs
      · rfl
      · rw [hc, Bool.or_true] at hl; exact absurd hl (by decide)
    rw [List.cons_append]
    cases x with
    | emitDisconnect => simp at hl
    | probeOp => simpa only [noIOAfterDisconnect] using ih hl'
    | serialWrite s => simpa only [noIOAfterDisconnect] using ih hl'
    | serialRead => simpa only [noIOAfterDisconnect] using ih hl'
    | emitLine s => simpa only [noIOAfterDisconnect] using ih hl'
    | enqueue r => simpa only [noIOAfterDisconnect] using ih hl'

theorem readLoop_noIO (cfg : Cfg) :
    ∀ (n : Nat) (rs : List ReadResult) (st : ThreadState) (t : Time),
      noIOAfterDisconnect (readLoop cfg n st rs t).2 = true := by
  intro n
  induction n with
  | zero => intro rs st t; rfl
  | succ n ih =>
    intro rs st t
    cases rs with
    | nil => rfl
    | cons r rs =>
      cases r with
      | fail => rw [readLoop_fail_eq]; rfl
      | line s =>
        cases hempty : (trimChars s.data).isEmpty with
        | true =>
          rw [readLoop_line_eq_empty cfg n st s rs t hempty]
          simpa only [noIOAfterDisconnect] using ih rs st t
        | false =>
          rw [readLoop_line_eq_nonempty cfg n st s rs t hempty]
          rw [List.cons_append, List.cons_append]
          simp only [noIOAfterDisconnect]
          exact noIO_of_prefix _ _ (containsDisconnect_enqueues _)
            (ih rs _ t)

theorem readSerialData_running_false (cfg : Cfg) (st : ThreadState)
    (b : Nat) (rs : List ReadResult) (t : Time)
    (h : st.running = false) :
    (readSerialData cfg st b rs t).1.running = false := by
  unfold readSerialData
  split
  · exact h
  · exact readLoop_running_false cfg _ rs st t h

theorem readSerialData_disc_running (cfg : Cfg) (st : ThreadState)
    (b : Nat) (rs : List ReadResult) (t : Time)
    (h : containsDisconnect (readSerialData cfg st b rs t).2 = true) :
    (readSerialData cfg st b rs t).1.running = false := by
  unfold readSerialData at h ⊢
  split at h
  · simp [containsDisconnect] at h
  · rename_i hb
    simp only [hb] at h ⊢
    exact readLoop_disc_running cfg _ rs st t h

theorem readSerialData_noIO (cfg : Cfg) (st : ThreadState) (b : Nat)
    (rs : List ReadResult) (t : Time) :
    noIOAfterDisconnect (readSerialData cfg st b rs t).2 = true := by
  unfold readSerialData
  split
  · rfl
  · exact readLoop_noIO cfg _ rs st t

theorem runIterationBody_disc_running (cfg : Cfg) (st : ThreadState)
    (t : Time) (nc : Option String) (w : Bool) (b : Nat)
    (rs : List ReadResult)
    (h : containsDisconnect (runIterationBody cfg st t nc w b rs).2
          = true) :
    (runIterationBody cfg st t nc w b rs).1.running = false := by
  simp only [runIterationBody] at h ⊢
  simp only [containsDisconnect_append, containsDisconnect_cons,
    containsDisconnect_enqueues, probeOp_beq_disc, Bool.or_false,
    Bool.false_or] at h
  cases h1 : containsDisconnect (processCommandQueue st t nc w).2 with
  | true =>
    have hr1 := processCommandQueue_disc_running st t nc w h1
    apply readSerialData_running_false
    rw [sendStatusRequests_preserves_running,
        checkPollingTimeout_preserves_running]
    exact hr1
  | false =>
    rw [h1, Bool.false_or] at h
    exact readSerialData_disc_running cfg _ b rs t h

theorem runIterationBody_noIO (cfg : Cfg) (st : ThreadState) (t : Time)
    (nc : Option String) (b : Nat) (rs : List ReadResult) :
    noIOAfterDisconnect (runIterationBody cfg st t nc true b rs).2
      = true := by
  simp only [runIterationBody]
  apply noIO_of_prefix
  · simp only [containsDisconnect_append, containsDisconnect_cons,
      containsDisconnect_enqueues, probeOp_beq_disc,
      processCommandQueue_no_disc_of_writeOk, Bool.or_false,
      Bool.false_or]
  · exact readSerialData_noIO cfg _ b rs t

/-- C4 counterexample: in an iteration whose command write fails while
bytes are pending, the disconnect sentinel is emitted and a serial read
still occurs afterwards in the same iteration, so the claim that no
further reads or writes occur after a disconnect event is false. -/
theorem disconnect_residual_read_cex :
    containsDisconnect (runLoop cfg0 st0 [(0, envWriteFail)]) = true
    ∧ noIOAfterDisconnect (runLoop cfg0 st0 [(0, envWriteFail)])
        = false := by decide

/-- C4 amended: once a disconnect is emitted the loop performs no
further iterations (a cleared running flag makes the loop body run
zero times, and any iteration emitting a disconnect either breaks or
clears the running flag); and on the probe-failure and read-failure
paths (any iteration whose write does not fail) no serial read or
write follows the disconnect emission — only the write-failure path
may still read already-pending bytes within its own iteration. -/
theorem disconnect_exits_loop (cfg : Cfg) (st : ThreadState) (t : Time)
    (env : IterEnv) (envs : List (Time × IterEnv)) :
    (st.running = false → runLoop cfg st envs = [])
    ∧ (containsDisconnect (runIteration cfg st t env).2.1 = true →
        (runIteration cfg st t env).2.2 = true
        ∨ (runIteration cfg st t env).1.running = false)
    ∧ (env.writeOk = true →
        noIOAfterDisconnect (runIteration cfg st t env).2.1 = true) := by
  obtain ⟨iso, probe, nc, w, rs⟩ := env
  refine ⟨?_, ?_, ?_⟩
  · intro h
    cases envs with
    | nil => rfl
    | cons e es => simp [runLoop, h]
  · intro h
    cases iso with
    | false => simp [runIteration, containsDisconnect] at h
    | true =>
      cases probe with
      | none => left; rfl
      | some b =>
        right
        simp only [runIteration] at h ⊢
        exact runIterationBody_disc_running cfg st t nc w b rs h
  · intro hw
    cases iso with
    | false => rfl
    | true =>
      cases probe with
      | none => rfl
      | some b =>
        simp only at hw
        subst hw
        simp only [runIteration]
        exact runIterationBody_noIO cfg st t nc b rs

/-- Witness for the amended C4: a stopped loop runs no iterations; a
read-failure iteration (write succeeded) both clears the running flag
and performs no I/O after its disconnect emission. -/
theorem disconnect_exits_loop_witness :
    runLoop cfg0 stStopped [(0, envReadFail)] = []
    ∧ ((runIteration cfg0 st0 0 envReadFail).2.2 = true
        ∨ (runIteration cfg0 st0 0 envReadFail).1.running = false)
    ∧ noIOAfterDisconnect (runIteration cfg0 st0 0 envReadFail).2.1
        = true :=
  ⟨(disconnect_exits_loop cfg0 stStopped 0 envReadFail
      [(0, envReadFail)]).1 (by decide),
   (disconnect_exits_loop cfg0 st0 0 envReadFail []).2.1 (by decide),
   (disconnect_exits_loop cfg0 st0 0 envReadFail []).2.2 (by decide)⟩

/-- C10: for every line and every flag combination, a routing result
that is not handled is shown in the console (handled or shown always
holds). -/
theorem unhandled_implies_shown (c : Classifier) (lastT now : Time)
    (homing : Bool) (data : String) (vs os sp : Bool) :
    ((route_response c lastT now homing data vs os sp).1.handled
      || (route_response c lastT now homing data vs os sp).1.show_in_console)
      = true := by
  cases h : identify_response_type c data <;>
    by_cases hw : now - lastT < manual_command_display_duration <;>
      simp [route_response, h, hw]

end Bifrost
